import Mathlib

/-!
Verification of the HRIS backend's dynamic authorization engine and
approval-authority policy, shallowly embedded from the JavaScript source.

Embedded modules:
* `src/middleware/authorizeFeature.js` — permissions cache, default feature
  table, the `canPerform` decision function and the `authorizeFeature`
  middleware.
* `src/middleware/checkApprovalAuthority.js` — the type-aware `canApprove`
  resolver and the department-only `checkAuthority` resolver.
* `src/routes/leave.js` — the leave approval endpoint and the leave-balance
  helpers.
* `src/routes/requests.js` — the generic request status-update endpoint.
* `src/routes/orgChart.js` (leave-workflow variant) — approval-chain
  construction at leave-request creation.

JavaScript dynamic values that the code tests for truthiness are modelled by
`JSVal`; fields that may be `undefined` are modelled with `Option`.
-/

/-- Model of the JavaScript values stored in an actor's explicit permission
map. Only the truthiness of such a value is ever consulted by the source. -/
inductive JSVal : Type where
  | undef : JSVal
  | null : JSVal
  | bool : Bool → JSVal
  | num : Int → JSVal
  | str : String → JSVal
deriving DecidableEq, Repr

/-- JavaScript truthiness for `JSVal`: `undefined`, `null`, `false`, `0` and
the empty string are falsy, everything else is truthy. -/
def JSVal.truthy : JSVal → Bool
  | .undef => false
  | .null => false
  | .bool b => b
  | .num n => n != 0
  | .str s => s != ""

/-- JavaScript truthiness of a possibly-undefined number (`!x` on a numeric
field): `undefined` and `0` are falsy. -/
def truthyNumOpt : Option Int → Bool
  | none => false
  | some n => n != 0

/-- JavaScript truthiness of a possibly-undefined string (`!x` on a string
field): `undefined` and `""` are falsy. -/
def truthyStrOpt : Option String → Bool
  | none => false
  | some s => s != ""

/-- JavaScript comparison `a >= r` where `a` may be `undefined`
(`undefined >= r` is `false` because the comparison goes through `NaN`). -/
def levelGE : Option Int → Int → Bool
  | none, _ => false
  | some a, r => decide (r ≤ a)

/-- JavaScript `o || d` on a possibly-undefined number (used for
`defaultFeaturePermissions[f]?.defaultLevel || 5`). -/
def jsOrInt : Option Int → Int → Int
  | none, d => d
  | some n, d => if n = 0 then d else n

/-- JavaScript `o || d` on a possibly-undefined string (used for
`comments || ''`). -/
def jsOrStr : Option String → String → String
  | none, d => d
  | some s, d => if s = "" then d else s

/-- JavaScript `o || null` on a possibly-undefined string (used for
`req.user.managerId || null` in the leave-request creation handler). -/
def jsOrNull : Option String → Option String
  | none => none
  | some s => if s = "" then none else some s

/-- Authenticated actor record attached to a request by the token
middleware (`req.user`): id, numeric access level, department, explicit
per-feature permission map, role-id list, and (for the leave route) the
actor's manager id. Fields the token layer may omit are `Option`. -/
structure Actor : Type where
  id : Option String
  accessLevel : Option Int
  department : Option String
  permissions : Option (String → JSVal)
  roles : Option (List String)
  managerId : Option String := none
  name : Option String := none

/-- Permission record as written to the permissions table by `setPermission`
and as held in the cache (`permissionsCache.permissions[name]`). -/
structure PermRec : Type where
  permissionName : String
  requiredLevel : Int
  description : String
deriving DecidableEq, Repr

/-- Role record as written to the roles table by `setRole` and as held in
the cache (`permissionsCache.roles[roleId]`); the `permissions` array may be
absent on a malformed record (the source guards with `role.permissions &&`). -/
structure RoleRec : Type where
  roleId : String
  permissions : Option (List String)
deriving DecidableEq, Repr

/-- In-memory permissions cache (`permissionsCache`): a timestamp (absent
until the first successful refresh) and the two maps built from the last
successful store scan. -/
structure Cache : Type where
  timestamp : Option Int
  permissions : String → Option PermRec
  roles : String → Option RoleRec

/-- Cache in its never-populated initial state (module load). -/
def emptyCache : Cache :=
  { timestamp := none, permissions := fun _ => none, roles := fun _ => none }

/-- Built-in default feature table `defaultFeaturePermissions` from
`authorizeFeature.js`, as an association list of feature name and
`defaultLevel` (the `description` strings of the table are dropped here:
no claim concerns them). -/
def defaultFeaturePermissions : List (String × Int) :=
  [("employee.view", 1), ("employee.view.all", 3), ("employee.edit", 3),
   ("employee.edit.all", 4), ("employee.create", 4), ("employee.delete", 5),
   ("requests.create", 1), ("requests.approve", 3), ("requests.view.all", 3),
   ("requests.manage", 4),
   ("documents.upload", 1), ("documents.view", 1), ("documents.view.all", 4),
   ("documents.manage", 4), ("documents.delete", 4),
   ("policies.view", 1), ("policies.create", 4), ("policies.update", 4),
   ("policies.delete", 5), ("policies.manage", 4),
   ("training.enroll", 1), ("training.view", 1), ("training.create", 3),
   ("training.manage", 3), ("training.delete", 4), ("training.report", 4),
   ("jobs.view", 1), ("jobs.apply", 1), ("jobs.post", 4), ("jobs.manage", 4),
   ("assets.assign", 3), ("assets.create", 3), ("assets.manage", 3),
   ("assets.delete", 4),
   ("analytics.basic", 3), ("analytics.advanced", 4), ("analytics.export", 4),
   ("system.settings", 5), ("system.users", 5), ("system.logs", 5),
   ("system.permissions", 5)]

/-- Lookup of a feature in the built-in default table
(`defaultFeaturePermissions[featureName]?.defaultLevel`). -/
def defaultLevel (f : String) : Option Int :=
  (defaultFeaturePermissions.lookup f)

/-- Resolution of the required level for a feature:
`permissionsCache.permissions[featureName] || { requiredLevel:
defaultFeaturePermissions[featureName]?.defaultLevel || 5, ... }` followed
by reading `.requiredLevel`. -/
def resolveRequiredLevel (c : Cache) (f : String) : Int :=
  match c.permissions f with
  | some p => p.requiredLevel
  | none => jsOrInt (defaultLevel f) 5

/-- Explicit-override check
(`user.permissions && user.permissions[featureName]`). -/
def hasOverride (u : Actor) (f : String) : Bool :=
  match u.permissions with
  | none => false
  | some pm => (pm f).truthy

/-- Test whether one role id grants the feature: `role && role.permissions &&
(role.permissions.includes(featureName) || role.permissions.includes('*'))`. -/
def roleMatches (c : Cache) (f : String) (rid : String) : Bool :=
  match c.roles rid with
  | none => false
  | some role =>
    match role.permissions with
    | none => false
    | some ps => ps.contains f || ps.contains "*"

/-- The `for (const roleId of user.roles)` loop: returns `true` at the first
matching role, `false` after exhausting the list. -/
def roleLoop (c : Cache) (f : String) : List String → Bool
  | [] => false
  | rid :: rest => if roleMatches c f rid then true else roleLoop c f rest

/-- Role-grant step of the decision: `user.roles &&
Array.isArray(user.roles) && user.roles.length > 0` guarding the loop over
role ids. -/
def roleGrant (c : Cache) (u : Actor) (f : String) : Bool :=
  match u.roles with
  | none => false
  | some rids => if 0 < rids.length then roleLoop c f rids else false

/-- Decision function `authorizeFeature.canPerform(featureName, user)` (the
pure decision against a given cache snapshot; the caller-triggered cache
refresh is modelled separately by `refreshPermissionsCache`). Evaluates:
the missing-actor and missing-everything guards, then explicit override,
then role grants, then the access-level fallback. -/
def canPerform (c : Cache) (f : String) (user : Option Actor) : Bool :=
  match user with
  | none => false
  | some u =>
    if !truthyNumOpt u.accessLevel && u.permissions.isNone && u.roles.isNone then
      false
    else if hasOverride u f then
      true
    else if roleGrant c u f then
      true
    else
      levelGE u.accessLevel (resolveRequiredLevel c f)

/-- Outcome of the `authorizeFeature(featureName)` middleware: 401 response
(no authenticated actor), `next()` (allowed), or the 403 denial response. -/
inductive MWOut : Type where
  | unauthenticated : MWOut
  | allowed : MWOut
  | denied : MWOut
deriving DecidableEq, Repr

/-- Middleware `authorizeFeature(featureName)` against a given cache
snapshot: `!req.user || !req.user.id` gives 401; then explicit override,
role grant and access-level fallback each call `next()`; otherwise the 403
denial response is returned. -/
def authorizeFeature (c : Cache) (f : String) (user : Option Actor) : MWOut :=
  match user with
  | none => .unauthenticated
  | some u =>
    if !truthyStrOpt u.id then
      .unauthenticated
    else if hasOverride u f then
      .allowed
    else if roleGrant c u f then
      .allowed
    else if levelGE u.accessLevel (resolveRequiredLevel c f) then
      .allowed
    else
      .denied

/-- Type-aware resolver `canApprove(requestType, accessLevel, isSameDept)`
from `checkApprovalAuthority.js`, translated clause by clause including the
`switch` over request types. -/
def canApprove (requestType : String) (accessLevel : Int) (isSameDept : Bool) : Bool :=
  if 5 ≤ accessLevel then
    true
  else if accessLevel = 4 then
    if requestType = "expense-high" then false else true
  else if accessLevel = 3 ∧ isSameDept = true then
    match requestType with
    | "leave" | "training" | "equipment" | "expense" | "document" | "travel" => true
    | "expense-high" | "policy-exception" | "security-access" | "salary-change" => false
    | _ => false
  else
    false

/-- Department-only resolver `checkAuthority(req, employeeDepartment)`:
requires an authenticated user (`req.user && req.user.id`), computes
`isSameDept` by strict string equality, then decides purely on the access
level with the same-department condition at level 3. -/
def checkAuthority (user : Option Actor) (employeeDepartment : String) : Bool :=
  match user with
  | none => false
  | some u =>
    if !truthyStrOpt u.id then
      false
    else if levelGE u.accessLevel 5 then
      true
    else if u.accessLevel = some 4 then
      true
    else if u.accessLevel = some 3 then
      decide (u.department = some employeeDepartment)
    else
      false

/-- The six request types a same-department level-3 manager may approve
(the first group of `case` labels of the `switch` in `canApprove`). -/
def managerApprovableTypes : List String :=
  ["leave", "training", "equipment", "expense", "document", "travel"]

/-- C4: the type-aware resolver allows everything at level 5 and above; at
level 4 it allows every request type except the literal `expense-high`; at
level 3 with matching department it allows exactly the six standard types
and denies every other type (including the four named restricted types and
any unrecognized type); at level 3 across departments it denies; and below
level 3 it denies everything. -/
theorem canApprove_policy_table :
    (∀ rt sd lv, 5 ≤ lv → canApprove rt lv sd = true)
    ∧ (∀ rt sd, rt ≠ "expense-high" → canApprove rt 4 sd = true)
    ∧ (∀ sd, canApprove "expense-high" 4 sd = false)
    ∧ (∀ rt, rt ∈ managerApprovableTypes → canApprove rt 3 true = true)
    ∧ (∀ rt, rt ∉ managerApprovableTypes → canApprove rt 3 true = false)
    ∧ (∀ rt, canApprove rt 3 false = false)
    ∧ (∀ rt sd lv, lv < 3 → canApprove rt lv sd = false) := by
  refine ⟨?_, ?_, ?_, ?_, ?_, ?_, ?_⟩
  · intro rt sd lv h
    simp [canApprove, h]
  · intro rt sd h
    simp [canApprove, h]
  · intro sd
    simp [canApprove]
  · intro rt h
    simp [managerApprovableTypes] at h
    rcases h with h | h | h | h | h | h <;> subst h <;> rfl
  · intro rt h
    simp [managerApprovableTypes] at h
    obtain ⟨h1, h2, h3, h4, h5, h6⟩ := h
    simp only [canApprove]
    rw [if_neg (by omega), if_neg (by omega), if_pos (by simp)]
    split <;> simp_all
  · intro rt
    simp [canApprove]
  · intro rt sd lv h
    simp only [canApprove]
    rw [if_neg (by omega), if_neg (by omega), if_neg (by simp; omega)]

/-- Witness for `canApprove_policy_table`: the policy-table rows quoted in
the spec, evaluated concretely. -/
theorem canApprove_policy_table_witness :
    canApprove "expense-high" 4 true = false
    ∧ canApprove "leave" 4 true = true
    ∧ canApprove "salary-change" 3 true = false
    ∧ canApprove "leave" 3 false = false
    ∧ canApprove "leave" 5 true = true := by
  refine ⟨canApprove_policy_table.2.2.1 true,
          canApprove_policy_table.2.1 "leave" true (by decide),
          canApprove_policy_table.2.2.2.2.1 "salary-change" (by decide),
          canApprove_policy_table.2.2.2.2.2.1 "leave",
          canApprove_policy_table.1 "leave" true 5 (by omega)⟩

/-- C5: the department-only resolver, for an authenticated actor, allows at
access level 5 and above; allows at level 4 regardless of department;
at level 3 allows exactly when the actor's department equals the employee's
department; and denies at every level below 3. It takes no request type. -/
theorem checkAuthority_policy (u : Actor) (dept : String)
    (hid : truthyStrOpt u.id = true) :
    (levelGE u.accessLevel 5 = true → checkAuthority (some u) dept = true)
    ∧ (u.accessLevel = some 4 → checkAuthority (some u) dept = true)
    ∧ (u.accessLevel = some 3 →
        (checkAuthority (some u) dept = true ↔ u.department = some dept))
    ∧ (∀ lv, u.accessLevel = some lv → lv < 3 → checkAuthority (some u) dept = false) := by
  refine ⟨?_, ?_, ?_, ?_⟩
  · intro h
    simp [checkAuthority, hid, h]
  · intro h
    simp [checkAuthority, hid, h, levelGE]
  · intro h
    simp [checkAuthority, hid, h, levelGE]
  · intro lv h hlt
    simp [checkAuthority, hid, h, levelGE]
    omega

/-- Concrete level-3 Sales manager used in witnesses. -/
def mgrSales : Actor :=
  { id := some "m1", accessLevel := some 3, department := some "Sales",
    permissions := none, roles := none }

/-- Witness for `checkAuthority_policy`: a level-3 manager approving inside
and outside their own department, evaluated concretely. -/
theorem checkAuthority_policy_witness :
    checkAuthority (some mgrSales) "Sales" = true
    ∧ checkAuthority (some mgrSales) "IT" = false := by
  constructor
  · exact ((checkAuthority_policy mgrSales "Sales" (by decide)).2.2.1 rfl).mpr rfl
  · have h := (checkAuthority_policy mgrSales "IT" (by decide)).2.2.1 rfl
    by_contra hc
    simp only [Bool.not_eq_false] at hc
    exact absurd (h.mp hc) (by decide)

/-- Membership characterization of the role loop: it succeeds exactly when
some role id in the list matches. -/
theorem roleLoop_eq_any (c : Cache) (f : String) (l : List String) :
    roleLoop c f l = l.any (roleMatches c f) := by
  induction l with
  | nil => rfl
  | cons rid rest ih =>
    simp only [roleLoop, List.any_cons]
    by_cases h : roleMatches c f rid = true
    · simp [h]
    · simp only [Bool.not_eq_true] at h
      simp [h, ih]

/-- C1: an explicit truthy override grants `canPerform`
regardless of the actor's roles and access level, and makes the
`authorizeFeature` middleware call `next()` for an authenticated actor. -/
theorem canPerform_override (c : Cache) (u : Actor) (f : String)
    (pm : String → JSVal) (hpm : u.permissions = some pm)
    (ht : (pm f).truthy = true) :
    canPerform c f (some u) = true
    ∧ (truthyStrOpt u.id = true → authorizeFeature c f (some u) = .allowed) := by
  have hov : hasOverride u f = true := by
    simp [hasOverride, hpm, ht]
  constructor
  · simp [canPerform, hpm, hov, Option.isNone]
  · intro hid
    simp [authorizeFeature, hid, hov]

/-- Witness for `canPerform_override`: a level-1 actor with no roles holding
an explicit `documents.delete` grant (default required level 4) is allowed. -/
def overrideActor : Actor :=
  { id := some "u1", accessLevel := some 1, department := some "Sales",
    permissions := some (fun g => if g = "documents.delete" then .bool true else .undef),
    roles := none }

/-- Witness theorem for `canPerform_override`, instantiated at
`overrideActor`, the empty cache and feature `documents.delete`. -/
theorem canPerform_override_witness :
    canPerform emptyCache "documents.delete" (some overrideActor) = true
    ∧ authorizeFeature emptyCache "documents.delete" (some overrideActor) = .allowed := by
  have h := canPerform_override emptyCache overrideActor "documents.delete"
    (fun g => if g = "documents.delete" then .bool true else .undef) rfl (by decide)
  exact ⟨h.1, h.2 (by decide)⟩

/-- C2: with no truthy override, an actor holding some role whose cached
permission array contains the feature or the literal `"*"` is granted,
whatever the access level; the outcome is invariant under permutation of
the role list; and a matching head role decides without the rest of the
list. -/
theorem canPerform_roleGrant (c : Cache) (u : Actor) (f : String)
    (rids : List String) (hroles : u.roles = some rids)
    (hov : hasOverride u f = false)
    (hmatch : ∃ rid ∈ rids, roleMatches c f rid = true) :
    canPerform c f (some u) = true
    ∧ (∀ (v : Actor) (rids2 : List String), v.roles = some rids2 →
        v.permissions = u.permissions → v.accessLevel = u.accessLevel →
        rids.Perm rids2 →
        canPerform c f (some v) = true)
    ∧ (∀ (rid : String) (rest : List String), roleMatches c f rid = true →
        roleLoop c f (rid :: rest) = true) := by
  have hgrant : ∀ (l : List String), (∃ rid ∈ l, roleMatches c f rid = true) →
      roleLoop c f l = true := by
    intro l hl
    rw [roleLoop_eq_any]
    exact List.any_eq_true.mpr hl
  have hrg : roleGrant c u f = true := by
    have hex := hmatch
    obtain ⟨rid, hmem, _⟩ := hex
    have hlen : 0 < rids.length := List.length_pos.mpr (List.ne_nil_of_mem hmem)
    simp [roleGrant, hroles, hlen, hgrant rids hmatch]
  refine ⟨?_, ?_, ?_⟩
  · simp [canPerform, hroles, hov, hrg, Option.isNone]
  · intro v rids2 hv hperm hacc hp
    have hov2 : hasOverride v f = false := by
      unfold hasOverride
      rw [hperm]
      exact hov
    have hmatch2 : ∃ rid ∈ rids2, roleMatches c f rid = true := by
      obtain ⟨rid, hmem, hm⟩ := hmatch
      exact ⟨rid, hp.mem_iff.mp hmem, hm⟩
    have hex2 := hmatch2
    obtain ⟨rid, hmem, _⟩ := hex2
    have hlen : 0 < rids2.length := List.length_pos.mpr (List.ne_nil_of_mem hmem)
    have hrg2 : roleGrant c v f = true := by
      simp [roleGrant, hv, hlen, hgrant rids2 hmatch2]
    simp [canPerform, hv, hov2, hrg2, Option.isNone]
  · intro rid rest hm
    simp [roleLoop, hm]

/-- Cache holding one role `wildcard` whose permissions array is `["*"]`,
used in witnesses. -/
def wildcardCache : Cache :=
  { timestamp := some 0,
    permissions := fun _ => none,
    roles := fun rid =>
      if rid = "wildcard" then some { roleId := "wildcard", permissions := some ["*"] }
      else none }

/-- Concrete level-1 actor holding the `wildcard` role (plus an unknown
role id), no override. -/
def wildcardActor : Actor :=
  { id := some "u2", accessLevel := some 1, department := some "Sales",
    permissions := none, roles := some ["wildcard", "ghost"] }

/-- The same actor with the role list reversed. -/
def wildcardActorSwapped : Actor :=
  { id := some "u2", accessLevel := some 1, department := some "Sales",
    permissions := none, roles := some ["ghost", "wildcard"] }

/-- Witness theorem for `canPerform_roleGrant`: the wildcard role grants
`system.settings` (default required level 5) to a level-1 actor, in either
role order, and the match short-circuits ahead of the unknown role. -/
theorem canPerform_roleGrant_witness :
    canPerform wildcardCache "system.settings" (some wildcardActor) = true
    ∧ canPerform wildcardCache "system.settings" (some wildcardActorSwapped) = true
    ∧ roleLoop wildcardCache "system.settings" ("wildcard" :: ["ghost"]) = true := by
  have h := canPerform_roleGrant wildcardCache wildcardActor "system.settings"
    ["wildcard", "ghost"] rfl (by decide) ⟨"wildcard", by decide, by decide⟩
  exact ⟨h.1,
         h.2.1 wildcardActorSwapped ["ghost", "wildcard"] rfl rfl rfl
           (List.Perm.swap "ghost" "wildcard" []),
         h.2.2 "wildcard" ["ghost"] (by decide)⟩

/-- Every entry of the built-in default table has level at least 1. -/
theorem defaultFeaturePermissions_levels_pos :
    ∀ p ∈ defaultFeaturePermissions, 1 ≤ p.2 := by
  decide

/-- Association-list lookup in a table of positive levels yields a positive
level. -/
theorem lookup_level_pos (l : List (String × Int)) (hl : ∀ p ∈ l, 1 ≤ p.2)
    (f : String) (n : Int) (h : l.lookup f = some n) : 1 ≤ n := by
  induction l with
  | nil => cases h
  | cons a rest ih =>
    obtain ⟨k, v⟩ := a
    cases hf : (f == k) with
    | true =>
      simp only [List.lookup, hf] at h
      cases h
      exact hl ⟨k, n⟩ (List.mem_cons_self _ _)
    | false =>
      simp only [List.lookup, hf] at h
      exact ih (fun p hp => hl p (List.mem_cons_of_mem _ hp)) h

/-- The resolved required level is at least 1 whenever any cached entry for
the feature respects the data-model invariant `requiredLevel ≥ 1`. -/
theorem resolveRequiredLevel_pos (c : Cache) (f : String)
    (hinv : ∀ p, c.permissions f = some p → 1 ≤ p.requiredLevel) :
    1 ≤ resolveRequiredLevel c f := by
  cases hc : c.permissions f with
  | some p =>
    simp only [resolveRequiredLevel, hc]
    exact hinv p hc
  | none =>
    simp only [resolveRequiredLevel, hc]
    cases hd : defaultLevel f with
    | none => simp [jsOrInt]
    | some n =>
      have hn : 1 ≤ n :=
        lookup_level_pos defaultFeaturePermissions
          defaultFeaturePermissions_levels_pos f n hd
      simp only [jsOrInt]
      split <;> omega

/-- Fallback lemma: with no truthy override and no matching role grant,
`canPerform` equals the access-level comparison against the resolved
required level (cache entry first, then the default table, then 5),
where a missing `accessLevel` compares as denied. -/
theorem canPerform_levelFallback (c : Cache) (u : Actor) (f : String)
    (hinv : ∀ p, c.permissions f = some p → 1 ≤ p.requiredLevel)
    (hov : hasOverride u f = false)
    (hrg : roleGrant c u f = false) :
    canPerform c f (some u) = levelGE u.accessLevel (resolveRequiredLevel c f) := by
  have hpos := resolveRequiredLevel_pos c f hinv
  by_cases hguard :
      (!truthyNumOpt u.accessLevel && u.permissions.isNone && u.roles.isNone) = true
  · simp only [canPerform]
    rw [if_pos hguard]
    cases ha : u.accessLevel with
    | none => simp [levelGE]
    | some a =>
      have ha0 : a = 0 := by
        simp [ha, truthyNumOpt] at hguard
        exact hguard.1.1
      subst ha0
      have hlv : levelGE (some 0) (resolveRequiredLevel c f) = false := by
        simp only [levelGE, decide_eq_false_iff_not]
        omega
      rw [hlv]
  · simp only [canPerform]
    rw [if_neg hguard, if_neg (by simp [hov]), if_neg (by simp [hrg])]

/-- Unrecognized-feature lemma: for a feature absent from both the
cache and the default table, the required level resolves to 5, so an actor
at level 4 with no override or role match is denied while one at level 5
is allowed. -/
theorem canPerform_unrecognized_feature (c : Cache) (f : String)
    (hc : c.permissions f = none) (hd : defaultLevel f = none) :
    resolveRequiredLevel c f = 5
    ∧ (∀ (u : Actor), hasOverride u f = false → roleGrant c u f = false →
        u.accessLevel = some 4 → canPerform c f (some u) = false)
    ∧ (∀ (u : Actor), hasOverride u f = false → roleGrant c u f = false →
        u.accessLevel = some 5 → canPerform c f (some u) = true) := by
  have hres : resolveRequiredLevel c f = 5 := by
    simp [resolveRequiredLevel, hc, hd, jsOrInt]
  have hinv : ∀ p, c.permissions f = some p → 1 ≤ p.requiredLevel := by
    intro p hp
    rw [hc] at hp
    cases hp
  refine ⟨hres, ?_, ?_⟩
  · intro u hov hrg ha
    rw [canPerform_levelFallback c u f hinv hov hrg, hres, ha]
    decide
  · intro u hov hrg ha
    rw [canPerform_levelFallback c u f hinv hov hrg, hres, ha]
    decide

/-- Concrete actors at levels 4 and 5 with no override and no roles. -/
def plainActor (lv : Int) : Actor :=
  { id := some "u3", accessLevel := some lv, department := some "Sales",
    permissions := none, roles := none }

/-- C3: with no truthy override and no matching role grant, `canPerform`
equals the access-level comparison against the resolved required level
(cache entry when present, else the built-in default table, else 5), and
for a feature absent from both the cache and the default table the level
resolves to 5, so a plain level-4 actor is denied and a plain level-5
actor is allowed. -/
theorem canPerform_accessLevel_fallback (c : Cache) (u : Actor) (f : String)
    (hinv : ∀ p, c.permissions f = some p → 1 ≤ p.requiredLevel)
    (hov : hasOverride u f = false)
    (hrg : roleGrant c u f = false) :
    canPerform c f (some u) = levelGE u.accessLevel (resolveRequiredLevel c f)
    ∧ (c.permissions f = none → defaultLevel f = none →
        resolveRequiredLevel c f = 5
        ∧ canPerform c f (some (plainActor 4)) = false
        ∧ canPerform c f (some (plainActor 5)) = true) := by
  refine ⟨canPerform_levelFallback c u f hinv hov hrg, ?_⟩
  intro hc hd
  have h := canPerform_unrecognized_feature c f hc hd
  exact ⟨h.1,
         h.2.1 (plainActor 4) (by simp [hasOverride, plainActor])
           (by simp [roleGrant, plainActor]) rfl,
         h.2.2 (plainActor 5) (by simp [hasOverride, plainActor])
           (by simp [roleGrant, plainActor]) rfl⟩

/-- Witness theorem for `canPerform_accessLevel_fallback`: on the empty
cache, a level-1 actor passes `documents.upload` (default level 1) and
fails `documents.delete` (default level 4); feature `totally.unknown` has
no cache and no default entry, so level 4 is denied and level 5 allowed. -/
theorem canPerform_accessLevel_fallback_witness :
    canPerform emptyCache "documents.upload" (some (plainActor 1)) = true
    ∧ canPerform emptyCache "documents.delete" (some (plainActor 1)) = false
    ∧ canPerform emptyCache "totally.unknown" (some (plainActor 4)) = false
    ∧ canPerform emptyCache "totally.unknown" (some (plainActor 5)) = true := by
  refine ⟨?_, ?_, ?_, ?_⟩
  · rw [(canPerform_accessLevel_fallback emptyCache (plainActor 1) "documents.upload"
      (by intro p hp; cases hp) (by decide) (by decide)).1]
    decide
  · rw [(canPerform_accessLevel_fallback emptyCache (plainActor 1) "documents.delete"
      (by intro p hp; cases hp) (by decide) (by decide)).1]
    decide
  · exact ((canPerform_accessLevel_fallback emptyCache (plainActor 1) "totally.unknown"
      (by intro p hp; cases hp) (by decide) (by decide)).2 rfl (by decide)).2.1
  · exact ((canPerform_accessLevel_fallback emptyCache (plainActor 1) "totally.unknown"
      (by intro p hp; cases hp) (by decide) (by decide)).2 rfl (by decide)).2.2

/-- C10: a falsy explicit entry behaves exactly like no entry at all — the
decision for an actor whose permission map sends `f` to a falsy value
equals the decision for the same actor with `f` mapped to `undefined`
(an absent property), for every cache, so a falsy override can never
revoke anything. -/
theorem canPerform_falsy_override_neutral (c : Cache) (u : Actor) (f : String)
    (pm : String → JSVal) (hpm : u.permissions = some pm)
    (hfalsy : (pm f).truthy = false) :
    canPerform c f (some u) =
      canPerform c f (some { u with
        permissions := some (fun g => if g = f then .undef else pm g) }) := by
  have hov1 : hasOverride u f = false := by
    simp [hasOverride, hpm, hfalsy]
  have hov2 : hasOverride
      { u with permissions := some (fun g => if g = f then .undef else pm g) } f = false := by
    simp [hasOverride, JSVal.truthy]
  simp only [canPerform, hov1, hov2, hpm]
  rfl

/-- Witness theorem for `canPerform_falsy_override_neutral`: an actor with
`permissions = { "documents.upload": false }` at level 1 gets the same
(allowed) outcome as with the entry absent. -/
theorem canPerform_falsy_override_neutral_witness :
    canPerform emptyCache "documents.upload"
      (some { plainActor 1 with
        permissions := some (fun g => if g = "documents.upload" then .bool false else .undef) })
    = canPerform emptyCache "documents.upload"
      (some { plainActor 1 with
        permissions := some (fun g =>
          if g = "documents.upload" then .undef
          else if g = "documents.upload" then JSVal.bool false else .undef) }) := by
  exact canPerform_falsy_override_neutral emptyCache
    { plainActor 1 with
      permissions := some (fun g => if g = "documents.upload" then .bool false else .undef) }
    "documents.upload"
    (fun g => if g = "documents.upload" then .bool false else .undef) rfl (by decide)

/-- Build of `permissionsCache.permissions` from scanned items: the
`forEach` assignment keyed by `permissionName`, later items overwriting
earlier ones. -/
def buildPermMap (items : List PermRec) : String → Option PermRec :=
  items.foldl (fun m it => fun k => if k = it.permissionName then some it else m k)
    (fun _ => none)

/-- Build of `permissionsCache.roles` from scanned items, keyed by
`roleId`. -/
def buildRoleMap (items : List RoleRec) : String → Option RoleRec :=
  items.foldl (fun m it => fun k => if k = it.roleId then some it else m k)
    (fun _ => none)

/-- Cache refresh `refreshPermissionsCache()`: the two table scans are taken
as `Except` outcomes (any store error thrown by either scan lands in the
`catch` block); on success the whole snapshot is replaced and `true` is
returned, on any error the cache is left as it was and `false` is returned
(the error is logged and swallowed, never rethrown — hence the plain pair
return type). -/
def refreshPermissionsCache (permsScan : Except String (List PermRec))
    (rolesScan : Except String (List RoleRec)) (now : Int) (c : Cache) :
    Cache × Bool :=
  match permsScan with
  | .error _ => (c, false)
  | .ok items =>
    match rolesScan with
    | .error _ => (c, false)
    | .ok roleItems =>
      ({ timestamp := some now,
         permissions := buildPermMap items,
         roles := buildRoleMap roleItems }, true)

/-- C6: when either store scan fails, the refresh returns the previous
cache snapshot unchanged together with the failure flag `false` (no
exception escapes: failure is a return value), every decision after the
failed refresh equals the decision against the last good snapshot, and on
a never-populated cache the required level resolves from the built-in
default table. -/
theorem refreshPermissionsCache_failure (p : Except String (List PermRec))
    (r : Except String (List RoleRec)) (now : Int) (c : Cache)
    (h : (∃ e, p = Except.error e) ∨ (∃ e, r = Except.error e)) :
    refreshPermissionsCache p r now c = (c, false)
    ∧ (∀ f u, canPerform (refreshPermissionsCache p r now c).1 f u = canPerform c f u)
    ∧ (∀ f, resolveRequiredLevel emptyCache f = jsOrInt (defaultLevel f) 5) := by
  have hmain : refreshPermissionsCache p r now c = (c, false) := by
    rcases h with ⟨e, he⟩ | ⟨e, he⟩
    · subst he
      rfl
    · subst he
      cases p with
      | error e2 => rfl
      | ok items => rfl
  refine ⟨hmain, ?_, ?_⟩
  · intro f u
    rw [hmain]
  · intro f
    rfl

/-- Witness theorem for `refreshPermissionsCache_failure`: a failed
permissions scan against the populated `wildcardCache` leaves it intact,
reports `false`, and the wildcard actor's decision is unchanged. -/
theorem refreshPermissionsCache_failure_witness :
    refreshPermissionsCache (Except.error "ProvisionedThroughputExceededException")
      (Except.ok []) 100 wildcardCache = (wildcardCache, false)
    ∧ canPerform (refreshPermissionsCache
        (Except.error "ProvisionedThroughputExceededException")
        (Except.ok []) 100 wildcardCache).1
        "system.settings" (some wildcardActor)
      = canPerform wildcardCache "system.settings" (some wildcardActor) := by
  have h := refreshPermissionsCache_failure
    (Except.error "ProvisionedThroughputExceededException")
    (Except.ok ([] : List RoleRec)) 100 wildcardCache
    (Or.inl ⟨"ProvisionedThroughputExceededException", rfl⟩)
  exact ⟨h.1, h.2.1 "system.settings" (some wildcardActor)⟩

/-- HTTP response as produced by the route handlers: status code, `success`
flag and `message` of the JSON body. -/
structure HResp : Type where
  code : Nat
  success : Bool
  message : String
deriving DecidableEq, Repr

/-- Leave-request record of the `LeaveRequests` table as created by
POST /leave/request and mutated by the approve endpoint in
`routes/leave.js`. -/
structure LeaveReq : Type where
  id : String
  employeeId : String
  startDate : String
  endDate : String
  leaveType : String
  reason : String
  leaveDays : Int
  status : String
  submittedAt : String
  managerId : Option String
  approvedBy : Option String := none
  approvedAt : Option String := none
  comments : Option String := none
deriving DecidableEq, Repr

/-- Persistent state touched by the leave routes: the `LeaveRequests` table
keyed by request id and the `LeaveBalances` table keyed by employee id and
leave type. -/
structure LeaveState : Type where
  requests : String → Option LeaveReq
  balances : String → String → Int

/-- Helper `updateLeaveBalance(employeeId, leaveType, daysUsed)`: the
unconditional `SET leaveType = leaveType - :daysUsed` update on the
`LeaveBalances` table. -/
def updateLeaveBalance (st : LeaveState) (employeeId leaveType : String)
    (daysUsed : Int) : LeaveState :=
  { st with balances := fun e =>
      if e = employeeId then
        fun t => if t = leaveType then st.balances e t - daysUsed else st.balances e t
      else st.balances e }

/-- Identifiers bound inside the PUT /leave/:id/approve handler body in
`routes/leave.js` (its destructured params and declared consts). The
identifier `employeeId` is not among them. -/
def approveHandlerBindings : List String :=
  ["id", "status", "comments", "managerId", "result", "leaveRequest", "updateParams"]

/-- JavaScript identifier resolution inside the approve handler: reading a
name that is not bound in the handler (or module) scope throws a
ReferenceError, which the handler's try/catch converts to the 500
response. -/
def readBinding (v : String) : Except String Unit :=
  if approveHandlerBindings.contains v then Except.ok ()
  else Except.error ("ReferenceError: " ++ v ++ " is not defined")

/-- Leave approval endpoint PUT /leave/:id/approve from `routes/leave.js`:
status validation, request fetch, assigned-manager check, pending check,
the status update, and — on approval — the balance-update call
`updateLeaveBalance(employeeId, leaveRequest.leaveType,
leaveRequest.leaveDays)`, whose first argument reads the identifier
`employeeId`; that identifier is not bound in the handler
(`approveHandlerBindings`), so the read throws and the catch block returns
the 500 response after the status update has already been written. The
`Except.ok` branch records what the call would do if the identifier were
bound to the request's employee id. -/
def putLeaveApprove (st : LeaveState) (id : String) (status : Option String)
    (comments : Option String) (managerId : String) (now : String) :
    LeaveState × HResp :=
  match status with
  | none => (st, ⟨400, false, "Invalid status. Must be approved or rejected."⟩)
  | some s =>
    if !(s == "approved" || s == "rejected") then
      (st, ⟨400, false, "Invalid status. Must be approved or rejected."⟩)
    else
      match st.requests id with
      | none => (st, ⟨404, false, "Leave request not found"⟩)
      | some lr =>
        if truthyStrOpt lr.managerId && decide (lr.managerId ≠ some managerId) then
          (st, ⟨403, false, "You are not authorized to approve this leave request."⟩)
        else if lr.status != "pending" then
          (st, ⟨403, false, "Leave request is not pending. Cannot approve or reject"⟩)
        else
          let st1 : LeaveState :=
            { st with requests := fun k =>
                if k = id then
                  some { lr with status := s, approvedBy := some managerId,
                                 approvedAt := some now,
                                 comments := some (jsOrStr comments "") }
                else st.requests k }
          if s == "approved" then
            match readBinding "employeeId" with
            | .error _ => (st1, ⟨500, false, "Internal server error"⟩)
            | .ok _ =>
              (updateLeaveBalance st1 lr.employeeId lr.leaveType lr.leaveDays,
               ⟨200, true, "Leave request approved successfully, status " ++ s⟩)
          else
            (st1, ⟨200, true, "Leave request approved successfully, status " ++ s⟩)

/-- Concrete pending leave request: 3 days of annual leave by employee E1,
no assigned manager. -/
def pendingLeaveReq : LeaveReq :=
  { id := "L1", employeeId := "E1", startDate := "2026-11-01",
    endDate := "2026-11-04", leaveType := "annual", reason := "vacation",
    leaveDays := 3, status := "pending", submittedAt := "2026-10-01",
    managerId := none }

/-- Store holding only `pendingLeaveReq`, every balance at 20 days. -/
def leaveState0 : LeaveState :=
  { requests := fun k => if k = "L1" then some pendingLeaveReq else none,
    balances := fun _ _ => 20 }

/-- C8: the source contradicts itself on approval. Approving the pending
request transitions its status to `approved` (the update has been written),
but the subsequent balance-update call reads the unbound identifier
`employeeId`, so the handler answers 500 and the employee's annual balance
stays at 20 instead of dropping by the recorded 3 leave days; rejection
leaves the balance untouched as well. -/
theorem leave_approve_balance_bug :
    "employeeId" ∉ approveHandlerBindings
    ∧ (putLeaveApprove leaveState0 "L1" (some "approved") none "M1" "t1").2
        = ⟨500, false, "Internal server error"⟩
    ∧ (((putLeaveApprove leaveState0 "L1" (some "approved") none "M1" "t1").1.requests
        "L1").map LeaveReq.status) = some "approved"
    ∧ (putLeaveApprove leaveState0 "L1" (some "approved") none "M1" "t1").1.balances
        "E1" "annual" = 20
    ∧ (putLeaveApprove leaveState0 "L1" (some "rejected") none "M1" "t1").1.balances
        "E1" "annual" = 20 := by
  decide

/-- Generic request record of the requests table as created by
POST /requests and mutated by PUT /requests/:id in `routes/requests.js`
(key-schema fields PK/SK/GSI are folded into `requestId`; `type` is named
`rtype` here because `type` is reserved in Lean). -/
structure GenReq : Type where
  requestId : String
  employeeId : String
  employeeName : String
  employeeDepartment : String
  rtype : String
  status : String
  approverId : Option String := none
  approverName : Option String := none
  approverComments : Option String := none
  updatedAt : String := ""
deriving DecidableEq, Repr

/-- Requests-table state for the generic request endpoints. -/
structure ReqState : Type where
  requests : String → Option GenReq

/-- Export object of `middleware/checkApprovalAuthority.js`:
`module.exports = { canApprove, checkAuthority }`. -/
def checkApprovalAuthorityExports : List String :=
  ["canApprove", "checkAuthority"]

/-- Call site `await checkApprovalAuthority(req.user,
request.employeeDepartment)` in `routes/requests.js`: the imported binding
is the module's export object (`checkApprovalAuthorityExports`), not a
function, so in JavaScript the call itself throws a TypeError; the
handler's catch block converts it to the 500 response. The thrown outcome
is recorded as an `Except.error`; no `ok` value is ever produced. -/
def callCheckApprovalAuthorityModule (_user : Option Actor) (_dept : String) :
    Except String Bool :=
  Except.error "TypeError: checkApprovalAuthority is not a function"

/-- Generic status-update endpoint PUT /requests/:id from
`routes/requests.js`: validates the status against
`['approved', 'rejected', 'pending']`, fetches the request, calls the
imported `checkApprovalAuthority` module object (which throws, see
`callCheckApprovalAuthorityModule`), and — had that call returned a
boolean — would deny on `false` or unconditionally overwrite the stored
status (no pending check appears anywhere in the handler). -/
def putRequestsId (st : ReqState) (requestId : String) (status : Option String)
    (comments : Option String) (u : Actor) (now : String) : ReqState × HResp :=
  match status with
  | none => (st, ⟨400, false, "Invalid status"⟩)
  | some s =>
    if !(s == "approved" || s == "rejected" || s == "pending") then
      (st, ⟨400, false, "Invalid status"⟩)
    else
      match st.requests requestId with
      | none => (st, ⟨404, false, "Request not found"⟩)
      | some r =>
        match callCheckApprovalAuthorityModule (some u) r.employeeDepartment with
        | .error _ => (st, ⟨500, false, "Internal server error"⟩)
        | .ok canApp =>
          if !canApp then
            (st, ⟨403, false, "Unauthorized to update this request"⟩)
          else
            ({ requests := fun k =>
                if k = requestId then
                  some { r with status := s, updatedAt := now,
                                approverComments := comments,
                                approverId := u.id, approverName := u.name }
                else st.requests k },
             ⟨200, true, "Request updated successfully"⟩)

/-- Concrete pending generic request by employee E1 of Sales. -/
def pendingGenReq : GenReq :=
  { requestId := "R1", employeeId := "E1", employeeName := "Eve",
    employeeDepartment := "Sales", rtype := "leave", status := "pending" }

/-- The same request after a decision. -/
def approvedGenReq : GenReq :=
  { pendingGenReq with status := "approved" }

/-- Requests-table state holding exactly one request under id R1. -/
def genState (g : GenReq) : ReqState :=
  { requests := fun k => if k = "R1" then some g else none }

/-- Concrete level-5 admin actor. -/
def adminActor : Actor :=
  { id := some "A1", accessLevel := some 5, department := some "HQ",
    permissions := none, roles := none, name := some "Admin" }

/-- Counterexample to C7 on the generic endpoint: a level-5 admin's
rejection attempt on the already-approved request R1 answers with the
catch-all 500 internal error — not a conflict-class client error — and an
approval attempt on a pending R1 also answers 500 with the request left
pending, so a request never transitions from pending to approved/rejected
on this endpoint at all (the handler has no pending check, and its
authority call throws). -/
theorem putRequestsId_no_conflict_counterexample :
    (putRequestsId (genState approvedGenReq) "R1" (some "rejected") none adminActor "t1").2
      = ⟨500, false, "Internal server error"⟩
    ∧ (putRequestsId (genState approvedGenReq) "R1" (some "rejected") none adminActor
        "t1").1.requests "R1" = some approvedGenReq
    ∧ (putRequestsId (genState pendingGenReq) "R1" (some "approved") none adminActor "t1").2
      = ⟨500, false, "Internal server error"⟩
    ∧ (putRequestsId (genState pendingGenReq) "R1" (some "approved") none adminActor
        "t1").1.requests "R1" = some pendingGenReq := by
  decide

/-- C7 as amended: on the leave approval endpoint an attempt with a valid
status by the assigned manager (or with no manager assigned) against a
non-pending request leaves the whole store unchanged and is answered with
the 403 conflict response, whose message differs from the
authorization-denial message of the same endpoint; and on the generic
endpoint every well-formed update attempt on an existing request returns
500 and leaves the store unchanged, so no transition ever happens there. -/
theorem leave_nonpending_immutable (st : LeaveState) (id s : String)
    (c : Option String) (mid now : String) (lr : LeaveReq)
    (hreq : st.requests id = some lr)
    (hs : s = "approved" ∨ s = "rejected")
    (hmgr : truthyStrOpt lr.managerId = false ∨ lr.managerId = some mid)
    (hnp : lr.status ≠ "pending") :
    putLeaveApprove st id (some s) c mid now
      = (st, ⟨403, false, "Leave request is not pending. Cannot approve or reject"⟩)
    ∧ ("Leave request is not pending. Cannot approve or reject" : String)
        ≠ "You are not authorized to approve this leave request."
    ∧ (∀ (gst : ReqState) (rid gs : String) (gc : Option String) (u : Actor)
        (t : String) (r : GenReq), gst.requests rid = some r →
        (gs = "approved" ∨ gs = "rejected" ∨ gs = "pending") →
        putRequestsId gst rid (some gs) gc u t
          = (gst, ⟨500, false, "Internal server error"⟩)) := by
  refine ⟨?_, by decide, ?_⟩
  · have hnpb : (lr.status != "pending") = true := by
      simpa using hnp
    rcases hs with h | h <;> subst h <;> rcases hmgr with h2 | h2 <;>
      simp [putLeaveApprove, hreq, h2, hnpb, hnp]
  · intro gst rid gs gc u t r hr hgs
    have hv : (gs == "approved" || gs == "rejected" || gs == "pending") = true := by
      rcases hgs with h | h | h <;> simp [h]
    simp [putRequestsId, hv, hr, callCheckApprovalAuthorityModule]

/-- The request L1 after having been approved once. -/
def decidedLeaveReq : LeaveReq :=
  { pendingLeaveReq with
    status := "approved",
    approvedBy := some "M1",
    approvedAt := some "t1",
    comments := some "" }

/-- Leave store in which L1 is already decided. -/
def leaveStateDecided : LeaveState :=
  { requests := fun k => if k = "L1" then some decidedLeaveReq else none,
    balances := fun _ _ => 17 }

/-- Witness theorem for `leave_nonpending_immutable`: a second decision
attempt on the already-approved L1 is rejected with the conflict response
and changes nothing. -/
theorem leave_nonpending_immutable_witness :
    putLeaveApprove leaveStateDecided "L1" (some "rejected") none "M1" "t2"
      = (leaveStateDecided,
         ⟨403, false, "Leave request is not pending. Cannot approve or reject"⟩) :=
  (leave_nonpending_immutable leaveStateDecided "L1" "rejected" none "M1" "t2"
    decidedLeaveReq (by decide) (Or.inr rfl) (Or.inl (by decide)) (by decide)).1

/-- User record of the org-chart users table (`hris_users`): id and
optional manager id. -/
structure OrgUser : Type where
  user_id : String
  manager_id : Option String
  department : String := ""
deriving DecidableEq, Repr

/-- Approval-chain construction from the org-chart leave-submission
handler: start empty; if the submitting user has a truthy `manager_id`,
push it, fetch that manager's user record, and if it exists and has a
truthy `manager_id` of its own, push that too. -/
def buildApproverChain (user : OrgUser) (usersTable : String → Option OrgUser) :
    List String :=
  match user.manager_id with
  | none => []
  | some m =>
    if m = "" then []
    else
      m :: (match usersTable m with
        | none => []
        | some mgr =>
          match mgr.manager_id with
          | none => []
          | some mm => if mm = "" then [] else [mm])

/-- Field keys of the object literal stored by POST /leave/request in
`routes/leave.js` (lines 83–94 of the handler). -/
def leaveJsItemKeys : List String :=
  ["id", "employeeId", "startDate", "endDate", "leaveType", "reason",
   "leaveDays", "status", "submittedAt", "managerId"]

/-- Field keys of the leave-request object stored by the org-chart
leave-submission handler. -/
def orgChartLeaveItemKeys : List String :=
  ["id", "user_id", "start_date", "end_date", "leave_type", "reason",
   "days", "status", "submitted_at", "approver_user_ids", "department",
   "created_at", "updated_at"]

/-- Leave-request record constructor of POST /leave/request in
`routes/leave.js`: status `pending`, `managerId` set to
`req.user.managerId || null`, and no approver-chain field of any kind. -/
def mkLeaveJsRequest (idStr employeeId startDate endDate leaveType reason : String)
    (leaveDays : Int) (submittedAt : String) (userManagerId : Option String) :
    LeaveReq :=
  { id := idStr, employeeId := employeeId, startDate := startDate,
    endDate := endDate, leaveType := leaveType, reason := reason,
    leaveDays := leaveDays, status := "pending", submittedAt := submittedAt,
    managerId := jsOrNull userManagerId }

/-- Counterexample to C9: the record stored by the leave route's creation
endpoint for a concrete employee whose manager is M1 carries no
`approverUserIds` (nor `approver_user_ids`) field at all — only the
single-level `managerId` — so it does not carry the claimed approval
chain; the chain field exists only in the org-chart variant's record. -/
theorem leaveJs_no_approver_chain :
    "approverUserIds" ∉ leaveJsItemKeys
    ∧ "approver_user_ids" ∉ leaveJsItemKeys
    ∧ "managerId" ∈ leaveJsItemKeys
    ∧ (mkLeaveJsRequest "leave_1_E1" "E1" "2026-11-01" "2026-11-04" "annual"
        "trip" 3 "2026-10-11" (some "M1")).managerId = some "M1"
    ∧ "approver_user_ids" ∈ orgChartLeaveItemKeys := by
  decide

/-- C9 as amended: only the org-chart leave-submission handler records an
approval chain, under the snake-case key `approver_user_ids`: for an
employee whose manager id `m` is present (and non-empty), the chain is
`[m]` when `m`'s user record is missing or has no manager of its own and
`[m, mm]` when that record names a manager `mm`; an employee with no
manager gets the empty chain; the leave route's own creation endpoint
stores no chain, only `managerId = req.user.managerId || null`. -/
theorem buildApproverChain_spec (tbl : String → Option OrgUser) (u : OrgUser)
    (m : String) (hm : u.manager_id = some m) (hm0 : m ≠ "") :
    (∀ mgr, tbl m = some mgr → mgr.manager_id = none →
      buildApproverChain u tbl = [m])
    ∧ (∀ mgr mm, tbl m = some mgr → mgr.manager_id = some mm → mm ≠ "" →
      buildApproverChain u tbl = [m, mm])
    ∧ (tbl m = none → buildApproverChain u tbl = [m])
    ∧ (∀ v : OrgUser, v.manager_id = none → buildApproverChain v tbl = [])
    ∧ (∀ (eid mid : Option String) (i e sd ed lt rs sa : String) (d : Int),
        eid = mid → (mkLeaveJsRequest i e sd ed lt rs d sa mid).managerId
          = jsOrNull mid) := by
  refine ⟨?_, ?_, ?_, ?_, ?_⟩
  · intro mgr htbl hmm
    simp [buildApproverChain, hm, hm0, htbl, hmm]
  · intro mgr mm htbl hmm hmm0
    simp [buildApproverChain, hm, hm0, htbl, hmm, hmm0]
  · intro htbl
    simp [buildApproverChain, hm, hm0, htbl]
  · intro v hv
    simp [buildApproverChain, hv]
  · intro eid mid i e sd ed lt rs sa d _
    rfl

/-- Concrete users table: E1 reports to M1, M1 reports to MM1, MM1 is top. -/
def orgTable : String → Option OrgUser :=
  fun k =>
    if k = "E1" then some { user_id := "E1", manager_id := some "M1" }
    else if k = "M1" then some { user_id := "M1", manager_id := some "MM1" }
    else if k = "MM1" then some { user_id := "MM1", manager_id := none }
    else none

/-- Witness theorem for `buildApproverChain_spec`: E1's chain is
`[M1, MM1]` and M1's own chain is `[MM1]`. -/
theorem buildApproverChain_spec_witness :
    buildApproverChain { user_id := "E1", manager_id := some "M1" } orgTable
      = ["M1", "MM1"]
    ∧ buildApproverChain { user_id := "M1", manager_id := some "MM1" } orgTable
      = ["MM1"] := by
  constructor
  · exact (buildApproverChain_spec orgTable
      { user_id := "E1", manager_id := some "M1" } "M1" rfl (by decide)).2.1
      { user_id := "M1", manager_id := some "MM1" } "MM1" (by decide) rfl (by decide)
  · exact (buildApproverChain_spec orgTable
      { user_id := "M1", manager_id := some "MM1" } "MM1" rfl (by decide)).1
      { user_id := "MM1", manager_id := none } (by decide) rfl
